import Mathlib

/-!
Shallow embedding of the Justifi approval-workflow backend (src/main.py,
src/schemas.py).

The MongoDB document store is modelled as an `AppState` carrying one
association list per collection, keyed by `Nat` identifiers, plus a
`nextId` counter standing for the fresh-ObjectId generator of
`insert_one`.  Collection iteration order is insertion order (Mongo
natural order).  `update_one` filtered by `_id` is modelled as a map over
the list touching the matching key: `_id` carries a unique index in
MongoDB, so at most one entry can match and updating every match on the
representable (duplicate-free) states coincides with updating the first.
`update_many` is a plain map.  Audit entries and outbox emails are never
addressed by id, so those collections are kept as plain lists and do not
consume the id counter.

Python `datetime.now` timestamps are write-only in the endpoints the
claims touch and are omitted.  The untyped `dynamic_values` /
`attachments` payload fields of a justification are inert (stored and
echoed, never read by the workflow core) and are likewise omitted.
Spend amounts (Python floats compared with `>=` only) are modelled as
rationals.  An HTTPException raised before any write leaves the state
unchanged; the `Outcome.internal` constructor marks the paths where the
Python handler would crash with an unhandled exception (attribute access
on a `None` justification) after some writes already happened.
-/

/-- Fields of the `JustificationCreate` request body (src/main.py lines 52-65),
minus the inert untyped `dynamic_values`/`attachments` payloads. -/
structure JustificationCreate where
  title : String
  type_code : String
  department : String
  cost_centre : String
  requester_email : String
  urgency : String
  description : String
  business_impact : Option String
  alternatives : Option String
  cost_estimate : Option Rat
  required_date : Option String
deriving DecidableEq, Repr

/-- A stored justification document: the create payload plus the workflow
`status` string (schemas.py `Justification`). -/
structure Justification extends JustificationCreate where
  status : String
deriving DecidableEq, Repr

/-- A stored routing rule (schemas.py `RoutingRule`).  `create_rule` inserts an
arbitrary dict, so every filter field may be absent: absent/null is `none`. -/
structure RoutingRule where
  name : String
  department : Option String
  type_code : Option String
  spend_threshold : Option Rat
  approver_emails : List String
deriving DecidableEq, Repr

/-- A stored approval task (schemas.py `ApprovalTask`). -/
structure ApprovalTask where
  justification_id : Nat
  approver_email : String
  step_index : Nat
  status : String
  requested_more_info : Option String
deriving DecidableEq, Repr

/-- A value of the free-form audit `details` dict: the handlers store strings,
nullable strings and ids. -/
inductive DVal where
  | s (v : String)
  | os (v : Option String)
  | n (v : Nat)
deriving DecidableEq, Repr

/-- An audit log document (schemas.py `AuditLog`), timestamp omitted. -/
structure AuditEntry where
  entity : String
  entity_id : Nat
  action : String
  actor_email : String
  details : List (String × DVal)
deriving DecidableEq, Repr

/-- A document of the `emailoutbox` collection written by `send_email_stub`.
`recipients` models the `to` field (`to` is a Lean keyword). -/
structure Email where
  recipients : List String
  subject : String
  html : String
deriving DecidableEq, Repr

/-- A stored comment (schemas.py `Comment`). -/
structure Comment where
  justification_id : Nat
  author_email : String
  message : String
  is_internal : Bool
deriving DecidableEq, Repr

/-- The whole document store. -/
structure AppState where
  nextId : Nat
  justifications : List (Nat × Justification)
  approvaltasks : List (Nat × ApprovalTask)
  routingrules : List RoutingRule
  auditlog : List AuditEntry
  emailoutbox : List Email
  comments : List (Nat × Comment)
deriving DecidableEq, Repr

/-- Result of a handler: the JSON success envelopes, the two HTTPException
kinds raised by the handlers (404 -> notFound, 400 -> invalidArgument), and
`internal` for an unhandled Python exception. -/
inductive Outcome where
  | ok
  | okId (id : Nat)
  | notFound (msg : String)
  | invalidArgument (msg : String)
  | internal
deriving DecidableEq, Repr

/-- `find_one` filtered by `_id`: first entry with the key. -/
def lookupA {α : Type} (k : Nat) (l : List (Nat × α)) : Option α :=
  (l.find? (fun p => p.1 == k)).map (fun p => p.2)

/-- `update_one` filtered by `_id` (unique index, see file comment). -/
def updateA {α : Type} (k : Nat) (f : α → α) (l : List (Nat × α)) :
    List (Nat × α) :=
  l.map (fun p => if p.1 == k then (p.1, f p.2) else p)

/-- `update_many` with a document predicate. -/
def updateManyA {α : Type} (pred : α → Bool) (f : α → α)
    (l : List (Nat × α)) : List (Nat × α) :=
  l.map (fun p => if pred p.2 then (p.1, f p.2) else p)

/-! ## Routing resolver (src/main.py lines 91-107) -/

/-- One candidate Mongo filter over the `routingrule` collection: `none`
component means the field is unconstrained. -/
structure RuleFilter where
  department : Option String
  type_code : Option String
deriving DecidableEq, Repr

/-- Mongo equality-filter semantics: a constrained field must equal the given
string; a rule whose field is absent does not match a string filter. -/
def filterMatches (c : RuleFilter) (r : RoutingRule) : Bool :=
  (match c.department with
   | none => true
   | some d => r.department == some d)
  && (match c.type_code with
      | none => true
      | some t => r.type_code == some t)

/-- The candidate tier list built by `select_routing_rule`: Python truthiness
on the `department` / `type_code` strings gates the first three tiers. -/
def candidateFilters (department type_code : String) : List RuleFilter :=
  (if department != "" && type_code != ""
   then [⟨some department, some type_code⟩] else [])
  ++ (if type_code != "" then [⟨none, some type_code⟩] else [])
  ++ (if department != "" then [⟨some department, none⟩] else [])
  ++ [⟨none, none⟩]

/-- The spend check on one rule: `thr is None or (spend or 0) >= float(thr)`. -/
def thresholdOk (spend : Option Rat) (r : RoutingRule) : Bool :=
  match r.spend_threshold with
  | none => true
  | some thr => decide (spend.getD 0 ≥ thr)

/-- `select_routing_rule` (src/main.py lines 91-107): scan the candidate tiers
in order, within a tier scan stored rules in insertion order, return the first
rule passing the spend check. -/
def select_routing_rule (rules : List RoutingRule)
    (department type_code : String) (spend : Option Rat) :
    Option RoutingRule :=
  (candidateFilters department type_code).findSome?
    (fun c => (rules.filter (filterMatches c)).find? (thresholdOk spend))

/-- The four tiers exactly as §4.1 of the spec words them, with no truthiness
gate: used only to compare the code against the spec text of claim C2. -/
def candidateFilters_spec (department type_code : String) : List RuleFilter :=
  [⟨some department, some type_code⟩, ⟨none, some type_code⟩,
   ⟨some department, none⟩, ⟨none, none⟩]

/-- Resolver following the spec text of C2 literally: always scan exactly the
four tiers of `candidateFilters_spec`, otherwise identical to the code. -/
def select_routing_rule_spec (rules : List RoutingRule)
    (department type_code : String) (spend : Option Rat) :
    Option RoutingRule :=
  (candidateFilters_spec department type_code).findSome?
    (fun c => (rules.filter (filterMatches c)).find? (thresholdOk spend))

/-! ## Side-effect helpers (src/main.py lines 112-132) -/

/-- `log_audit`: append one immutable audit document. -/
def log_audit (s : AppState) (entity : String) (entity_id : Nat)
    (action : String) (actor : String) (details : List (String × DVal)) :
    AppState :=
  { s with auditlog := s.auditlog ++ [⟨entity, entity_id, action, actor, details⟩] }

/-- `send_email_stub`: append one outbox document. -/
def send_email_stub (s : AppState) (recipients : List String)
    (subject html : String) : AppState :=
  { s with emailoutbox := s.emailoutbox ++ [⟨recipients, subject, html⟩] }

/-! ## Request bodies (src/main.py lines 68-87) -/

/-- `ApproverAction`: actor plus optional comment. -/
structure ApproverAction where
  actor_email : String
  comment : Option String
deriving DecidableEq, Repr

/-- `RequestInfoAction`: the `reason` field is required by the schema, so a
request without it never reaches the handler; an empty string is a legal
value of it. -/
structure RequestInfoAction where
  actor_email : String
  reason : String
deriving DecidableEq, Repr

/-- `ResubmitPayload`. -/
structure ResubmitPayload where
  actor_email : String
  message : Option String
deriving DecidableEq, Repr

/-- `CommentCreate`. -/
structure CommentCreate where
  author_email : String
  message : String
  is_internal : Bool
deriving DecidableEq, Repr

/-- Python truthiness test `not action.comment` on an optional string:
true exactly on `None` and the empty string. -/
def reasonMissing : Option String → Bool
  | none => true
  | some r => r == ""

/-! ## Workflow endpoints -/

/-- The approver list a submission resolves to (src/main.py lines 179-182):
the `approver_emails` list of the selected rule with falsy (empty) entries dropped;
empty when no rule matched or the rule has no/empty approver list. -/
def resolved_approvers (rules : List RoutingRule)
    (department type_code : String) (spend : Option Rat) : List String :=
  match select_routing_rule rules department type_code spend with
  | none => []
  | some r =>
    if r.approver_emails.isEmpty then []
    else r.approver_emails.filter (fun a => a != "")

/-- The `for idx, email in enumerate(approvers)` insertion loop of
`create_justification` (src/main.py lines 185-192): one Pending task per
approver, step indices counting up from `idx`, ids counting up from
`firstId`. -/
def mkTasks (jid : Nat) (firstId : Nat) (idx : Nat) :
    List String → List (Nat × ApprovalTask)
  | [] => []
  | email :: rest =>
    (firstId, ⟨jid, email, idx, "Pending", none⟩)
      :: mkTasks jid (firstId + 1) (idx + 1) rest

/-- POST /api/justifications (src/main.py lines 167-201). -/
def create_justification (s : AppState) (payload : JustificationCreate) :
    AppState × Outcome :=
  let jid := s.nextId
  let s1 : AppState :=
    { s with
      justifications := s.justifications ++ [(jid, ⟨payload, "PendingApproval"⟩)]
      nextId := s.nextId + 1 }
  let approvers := resolved_approvers s1.routingrules payload.department
    payload.type_code payload.cost_estimate
  let s2 : AppState :=
    { s1 with
      approvaltasks := s1.approvaltasks ++ mkTasks jid s1.nextId 0 approvers
      nextId := s1.nextId + approvers.length }
  let s3 :=
    if approvers.isEmpty then s2
    else send_email_stub s2 approvers "New approval request"
      ("Justification " ++ payload.title ++ " requires your approval.")
  let s4 := send_email_stub s3 [payload.requester_email] "Submission received"
    ("Your justification \x27" ++ payload.title ++ "\x27 has been submitted.")
  let s5 := log_audit s4 "justification" jid "CREATE" payload.requester_email
    [("title", .s payload.title)]
  (s5, .okId jid)

/-- POST /api/approvals/(task_id)/approve (src/main.py lines 245-261). -/
def approve_task (s : AppState) (task_id : Nat) (action : ApproverAction) :
    AppState × Outcome :=
  match lookupA task_id s.approvaltasks with
  | none => (s, .notFound "Task not found")
  | some task =>
    let jid := task.justification_id
    let s1 : AppState := { s with
        approvaltasks := updateA task_id
          (fun t => { t with status := "Approved" }) s.approvaltasks }
    let s2 := log_audit s1 "justification" jid "APPROVE" action.actor_email
      [("task_id", .n task_id), ("comment", .os action.comment)]
    let remaining := (s2.approvaltasks.filter
      (fun p => p.2.justification_id == jid && p.2.status != "Approved")).length
    if remaining == 0 then
      let s3 : AppState := { s2 with
          justifications := updateA jid
            (fun j => { j with status := "Approved" }) s2.justifications }
      match lookupA jid s3.justifications with
      | none => (s3, .internal)
      | some just =>
        (send_email_stub s3 [just.requester_email] "Final approval"
          ("Your justification \x27" ++ just.title ++ "\x27 is approved."),
         .ok)
    else (s2, .ok)

/-- POST /api/approvals/(task_id)/reject (src/main.py lines 264-279). -/
def reject_task (s : AppState) (task_id : Nat) (action : ApproverAction) :
    AppState × Outcome :=
  if reasonMissing action.comment then
    (s, .invalidArgument "Rejection requires a reason in comment")
  else
    match lookupA task_id s.approvaltasks with
    | none => (s, .notFound "Task not found")
    | some task =>
      let jid := task.justification_id
      let s1 : AppState := { s with
          approvaltasks := updateA task_id
            (fun t => { t with status := "Rejected" }) s.approvaltasks }
      let s2 : AppState := { s1 with
          justifications := updateA jid
            (fun j => { j with status := "Rejected" }) s1.justifications }
      let s3 := log_audit s2 "justification" jid "REJECT" action.actor_email
        [("task_id", .n task_id), ("comment", .os action.comment)]
      match lookupA jid s3.justifications with
      | none => (s3, .internal)
      | some just =>
        (send_email_stub s3 [just.requester_email] "Rejected"
          ("Your justification \x27" ++ just.title
            ++ "\x27 was rejected. Reason: " ++ action.comment.getD ""),
         .ok)

/-- POST /api/approvals/(task_id)/request-info (src/main.py lines 282-295). -/
def request_info (s : AppState) (task_id : Nat) (action : RequestInfoAction) :
    AppState × Outcome :=
  match lookupA task_id s.approvaltasks with
  | none => (s, .notFound "Task not found")
  | some task =>
    let jid := task.justification_id
    let s1 : AppState := { s with
        approvaltasks := updateA task_id
          (fun t => { t with
              status := "NeedsMoreInfo",
              requested_more_info := some action.reason })
          s.approvaltasks }
    let s2 : AppState := { s1 with
        justifications := updateA jid
          (fun j => { j with status := "NeedsMoreInfo" }) s1.justifications }
    match lookupA jid s2.justifications with
    | none => (s2, .internal)
    | some just =>
      let s3 := send_email_stub s2 [just.requester_email]
        "More information requested"
        ("Approver requested more info: " ++ action.reason)
      let s4 := log_audit s3 "justification" jid "REQUEST_INFO"
        action.actor_email
        [("task_id", .n task_id), ("reason", .s action.reason)]
      (s4, .ok)

/-- POST /api/justifications/(jid)/resubmit (src/main.py lines 298-308). -/
def resubmit (s : AppState) (jid : Nat) (payload : ResubmitPayload) :
    AppState × Outcome :=
  match lookupA jid s.justifications with
  | none => (s, .notFound "Not found")
  | some _ =>
    let s1 : AppState := { s with
        justifications := updateA jid
          (fun j => { j with status := "PendingApproval" }) s.justifications }
    let s2 : AppState := { s1 with
        approvaltasks := updateManyA
          (fun t => t.justification_id == jid && t.status == "NeedsMoreInfo")
          (fun t => { t with status := "Pending" })
          s1.approvaltasks }
    let s3 := log_audit s2 "justification" jid "RESUBMIT" payload.actor_email
      [("message", .os payload.message)]
    (send_email_stub s3 [payload.actor_email] "Resubmitted"
      "Your justification was resubmitted.", .ok)

/-- POST /api/justifications/(jid)/comments (src/main.py lines 311-323). -/
def add_comment (s : AppState) (jid : Nat) (payload : CommentCreate) :
    AppState × Outcome :=
  match lookupA jid s.justifications with
  | none => (s, .notFound "Justification not found")
  | some _ =>
    let cid := s.nextId
    let s1 : AppState :=
      { s with
        comments := s.comments
          ++ [(cid, ⟨jid, payload.author_email, payload.message,
                payload.is_internal⟩)]
        nextId := s.nextId + 1 }
    let s2 := log_audit s1 "justification" jid "COMMENT" payload.author_email
      [("comment_id", .n cid)]
    (s2, .okId cid)

/-! ## Read side (src/main.py lines 215-225), needed for claim C7 -/

/-- Stable insertion of a task entry into a list sorted by `step_index`
(models the Mongo sort of the detail view). -/
def insertByStep (p : Nat × ApprovalTask) :
    List (Nat × ApprovalTask) → List (Nat × ApprovalTask)
  | [] => [p]
  | q :: rest =>
    if p.2.step_index < q.2.step_index then p :: q :: rest
    else q :: insertByStep p rest

/-- Sort task entries by `step_index`. -/
def sortByStep : List (Nat × ApprovalTask) → List (Nat × ApprovalTask)
  | [] => []
  | p :: rest => insertByStep p (sortByStep rest)

/-- The aggregated response of GET /api/justifications/(jid). -/
structure JustificationDetail where
  justification : Justification
  approval_tasks : List (Nat × ApprovalTask)
  detail_comments : List (Nat × Comment)
  audit : List AuditEntry
deriving DecidableEq, Repr

/-- GET /api/justifications/(jid): pure read, returns the justification with
its tasks (by step index), comments (insertion = creation order) and audit
trail (insertion = timestamp order). -/
def get_justification (s : AppState) (jid : Nat) :
    Option JustificationDetail × Outcome :=
  match lookupA jid s.justifications with
  | none => (none, .notFound "Not found")
  | some doc =>
    (some
      ⟨doc,
       sortByStep (s.approvaltasks.filter (fun p => p.2.justification_id == jid)),
       s.comments.filter (fun p => p.2.justification_id == jid),
       s.auditlog.filter
         (fun a => a.entity == "justification" && a.entity_id == jid)⟩,
     .ok)

/-! ## Outcome helpers and concrete fixtures used by witnesses -/

/-- Whether an outcome is a NotFound error of any message. -/
def Outcome.isNotFound : Outcome → Bool
  | .notFound _ => true
  | _ => false

/-- A concrete justification document. -/
def wJust : Justification :=
  ⟨⟨"Laptop", "CAPEX", "Eng", "cc1", "req@x", "high", "d",
    none, none, some 5000, none⟩, "PendingApproval"⟩

/-- A concrete pending task of justification 0, step 0. -/
def wTask0 : ApprovalTask := ⟨0, "a@x", 0, "Pending", none⟩

/-- A concrete already-approved task of justification 0, step 1. -/
def wTask1 : ApprovalTask := ⟨0, "b@x", 1, "Approved", none⟩

/-- A store with one justification (id 0) and two tasks (ids 1, 2). -/
def wState : AppState := ⟨5, [(0, wJust)], [(1, wTask0), (2, wTask1)], [], [], [], []⟩

/-- `wState` after a request-info round: justification and task 1 are
NeedsMoreInfo. -/
def wStateN : AppState :=
  ⟨5, [(0, { wJust with status := "NeedsMoreInfo" })],
   [(1, { wTask0 with status := "NeedsMoreInfo", requested_more_info := some "x" }),
    (2, wTask1)], [], [], [], []⟩

/-- `wState` after a rejection: justification and task 1 are Rejected. -/
def wStateR : AppState :=
  ⟨5, [(0, { wJust with status := "Rejected" })],
   [(1, { wTask0 with status := "Rejected" }), (2, wTask1)], [], [], [], []⟩

/-- A concrete routing rule matching department Eng, type CAPEX, spend 1000+. -/
def wRule : RoutingRule := ⟨"eng", some "Eng", some "CAPEX", some 1000, ["a@x", "b@x"]⟩

/-- A store holding only `wRule`. -/
def wState2 : AppState := ⟨10, [], [], [wRule], [], [], []⟩

/-- A concrete submission payload for department Eng, type CAPEX, spend 5000. -/
def wPayload : JustificationCreate :=
  ⟨"Laptop", "CAPEX", "Eng", "cc1", "req@x", "high", "d",
   none, none, some 5000, none⟩

/-! ## Association-list lemmas -/

theorem lookupA_cons {α : Type} (k : Nat) (p : Nat × α) (l : List (Nat × α)) :
    lookupA k (p :: l) = if p.1 == k then some p.2 else lookupA k l := by
  by_cases h : p.1 == k <;> simp [lookupA, List.find?_cons, h]

theorem updateA_cons {α : Type} (k : Nat) (f : α → α) (p : Nat × α)
    (l : List (Nat × α)) :
    updateA k f (p :: l) =
      (if p.1 == k then (p.1, f p.2) else p) :: updateA k f l := rfl

theorem updateManyA_cons {α : Type} (pred : α → Bool) (f : α → α)
    (p : Nat × α) (l : List (Nat × α)) :
    updateManyA pred f (p :: l) =
      (if pred p.2 then (p.1, f p.2) else p) :: updateManyA pred f l := rfl

theorem lookupA_updateA_self {α : Type} (k : Nat) (f : α → α)
    (l : List (Nat × α)) :
    lookupA k (updateA k f l) = (lookupA k l).map f := by
  induction l with
  | nil => simp [lookupA, updateA]
  | cons p rest ih =>
    by_cases h : p.1 = k
    · simp [updateA_cons, lookupA_cons, beq_iff_eq, h]
    · simp [updateA_cons, lookupA_cons, beq_iff_eq, h, ih]

theorem lookupA_updateA_ne {α : Type} (k k' : Nat) (f : α → α)
    (l : List (Nat × α)) (h : k' ≠ k) :
    lookupA k' (updateA k f l) = lookupA k' l := by
  induction l with
  | nil => simp [lookupA, updateA]
  | cons p rest ih =>
    by_cases hp : p.1 = k
    · have hp' : p.1 ≠ k' := fun hc => h (hc ▸ hp ▸ rfl)
      simp [updateA_cons, lookupA_cons, beq_iff_eq, hp, hp', ih, Ne.symm h]
    · by_cases hk' : p.1 = k'
      · simp [updateA_cons, lookupA_cons, beq_iff_eq, hp, hk', h]
      · simp [updateA_cons, lookupA_cons, beq_iff_eq, hp, hk', ih]

theorem lookupA_updateManyA {α : Type} (k : Nat) (pred : α → Bool)
    (f : α → α) (l : List (Nat × α)) :
    lookupA k (updateManyA pred f l) =
      (lookupA k l).map (fun x => if pred x then f x else x) := by
  induction l with
  | nil => simp [lookupA, updateManyA]
  | cons p rest ih =>
    by_cases hp : pred p.2 <;> by_cases hk : p.1 = k <;>
      simp [updateManyA_cons, lookupA_cons, beq_iff_eq, hp, hk, ih]

theorem lookupA_append_of_none {α : Type} (k : Nat) (l1 l2 : List (Nat × α))
    (h : lookupA k l1 = none) :
    lookupA k (l1 ++ l2) = lookupA k l2 := by
  have hf : l1.find? (fun p => p.1 == k) = none := by
    by_contra hne
    rcases Option.ne_none_iff_exists.1 hne with ⟨p, hp⟩
    rw [lookupA, ← hp] at h
    simp at h
  rw [lookupA, List.find?_append, hf, Option.none_or, lookupA]

theorem lookupA_append_singleton {α : Type} (k : Nat) (v : α)
    (l : List (Nat × α)) (h : lookupA k l = none) :
    lookupA k (l ++ [(k, v)]) = some v := by
  rw [lookupA_append_of_none k l [(k, v)] h]
  simp [lookupA, List.find?_cons]

/-- The task batch of a submission, described positionally: entry `i` holds
the `i`-th approver, step index `i` (counting from `idx`) and id
`firstId + i`. -/
theorem mkTasks_eq_range_map (jid : Nat) (l : List String) :
    ∀ firstId idx : Nat,
      mkTasks jid firstId idx l =
        (List.range l.length).map (fun i =>
          (firstId + i, ⟨jid, l.getD i "", idx + i, "Pending", none⟩)) := by
  induction l with
  | nil => intro firstId idx; simp [mkTasks]
  | cons a rest ih =>
    intro firstId idx
    rw [mkTasks, ih (firstId + 1) (idx + 1)]
    rw [List.length_cons, List.range_succ_eq_map, List.map_cons, List.map_map]
    refine congrArg₂ _ (by simp) ?_
    apply List.map_congr_left
    intro i _
    simp only [Function.comp, Nat.succ_eq_add_one, List.getD_cons_succ]
    refine Prod.ext (by omega) ?_
    simp only [ApprovalTask.mk.injEq, and_true, true_and]
    omega

/-- After flipping the approved task, the `count_documents` filter of
`approve_task` finds nothing when every other task of the justification was
already Approved. -/
theorem remaining_zero_of_all (tid jid : Nat) (l : List (Nat × ApprovalTask))
    (hAll : ∀ p ∈ l, p.2.justification_id = jid →
      p.1 = tid ∨ p.2.status = "Approved") :
    (updateA tid (fun t => { t with status := "Approved" }) l).filter
      (fun p => p.2.justification_id == jid && p.2.status != "Approved")
      = [] := by
  rw [List.filter_eq_nil_iff]
  intro p hp
  rw [updateA] at hp
  rcases List.mem_map.1 hp with ⟨q, hq, hgq⟩
  by_cases h : q.1 == tid
  · rw [if_pos h] at hgq
    subst hgq
    simp
  · rw [if_neg h] at hgq
    subst hgq
    simp only [Bool.and_eq_true, beq_iff_eq, bne_iff_ne, ne_eq, not_and,
      not_not]
    intro hjid
    rcases hAll q hq hjid with h1 | h1
    · exact absurd h1 (by simpa using h)
    · exact h1

/-! ## Claim theorems -/

/-- C3: Reject with a non-empty reason on an existing task sets that task to
Rejected and unconditionally sets the owning justification to Rejected,
whatever the other tasks of the justification look like (the state is
arbitrary), and reports success. -/
theorem C3_reject_terminal (s : AppState) (tid : Nat) (a : ApproverAction)
    (task : ApprovalTask) (j : Justification)
    (hr : reasonMissing a.comment = false)
    (hT : lookupA tid s.approvaltasks = some task)
    (hJ : lookupA task.justification_id s.justifications = some j) :
    (reject_task s tid a).2 = .ok ∧
    lookupA tid (reject_task s tid a).1.approvaltasks =
      some { task with status := "Rejected" } ∧
    lookupA task.justification_id (reject_task s tid a).1.justifications =
      some { j with status := "Rejected" } := by
  simp only [reject_task, hr, Bool.false_eq_true, if_false, hT, log_audit,
    send_email_stub, lookupA_updateA_self, hJ, Option.map_some']
  exact ⟨by trivial, by trivial, by trivial⟩

/-- C3 witness: rejecting pending task 1 of the concrete store flips the task
and justification 0 to Rejected. -/
theorem C3_witness :
    (reject_task wState 1 ⟨"a@x", some "too costly"⟩).2 = .ok ∧
    lookupA 1 (reject_task wState 1 ⟨"a@x", some "too costly"⟩).1.approvaltasks
      = some ⟨0, "a@x", 0, "Rejected", none⟩ ∧
    lookupA 0 (reject_task wState 1 ⟨"a@x", some "too costly"⟩).1.justifications
      = some { wJust with status := "Rejected" } := by
  have h := C3_reject_terminal wState 1 ⟨"a@x", some "too costly"⟩ wTask0 wJust
    (by decide) (by decide) (by decide)
  exact ⟨h.1, h.2.1, h.2.2⟩

/-- C6 fails as stated: RequestInfo with an empty (present) reason is not
rejected with InvalidArgument — on the concrete store it succeeds and mutates
task 1 to NeedsMoreInfo with the empty reason stored. -/
theorem C6_counterexample :
    (request_info wState 1 ⟨"a@x", ""⟩).2 = .ok ∧
    (request_info wState 1 ⟨"a@x", ""⟩).1 ≠ wState ∧
    lookupA 1 (request_info wState 1 ⟨"a@x", ""⟩).1.approvaltasks =
      some ⟨0, "a@x", 0, "NeedsMoreInfo", some ""⟩ := by decide

/-- C6 amended: Reject with a missing or empty reason fails with
InvalidArgument and leaves the store untouched (no task/justification
change, no audit entry); RequestInfo only rejects an absent reason at
schema-validation time, while an empty reason string is accepted and the
operation proceeds. -/
theorem C6_missing_reason (s : AppState) (tid tid' : Nat)
    (a : ApproverAction) (actor : String) (task : ApprovalTask)
    (j : Justification)
    (hr : reasonMissing a.comment = true)
    (hT : lookupA tid' s.approvaltasks = some task)
    (hJ : lookupA task.justification_id s.justifications = some j) :
    reject_task s tid a =
      (s, .invalidArgument "Rejection requires a reason in comment") ∧
    (request_info s tid' ⟨actor, ""⟩).2 = .ok := by
  constructor
  · simp only [reject_task, hr, if_true]
  · simp only [request_info, hT, send_email_stub, log_audit,
      lookupA_updateA_self, hJ, Option.map_some']

/-- C6 witness: a Reject on the concrete store with reason `none` changes
nothing and reports InvalidArgument; RequestInfo on task 1 with an empty
reason succeeds. -/
theorem C6_witness :
    reject_task wState 1 ⟨"a@x", none⟩ =
      (wState, .invalidArgument "Rejection requires a reason in comment") ∧
    (request_info wState 1 ⟨"a@x", ""⟩).2 = .ok := by
  have h := C6_missing_reason wState 1 1 ⟨"a@x", none⟩ "a@x" wTask0 wJust
    (by decide) (by decide) (by decide)
  exact ⟨h.1, h.2⟩

/-- C7 fails as stated: Reject checks the missing reason before the task
lookup, so a Reject whose task id is unknown *and* whose reason is empty
fails with InvalidArgument, not NotFound. -/
theorem C7_counterexample :
    lookupA 99 wState.approvaltasks = none ∧
    (reject_task wState 99 ⟨"a@x", none⟩).2 =
      .invalidArgument "Rejection requires a reason in comment" ∧
    ((reject_task wState 99 ⟨"a@x", none⟩).2).isNotFound = false := by decide

/-- C7 amended: Approve, Reject (when it carries a non-empty reason, since
the missing-reason check runs first), and RequestInfo on an unknown task id,
and Resubmit, add-comment and get on an unknown justification id, all fail
with NotFound and leave the store unchanged. -/
theorem C7_unknown_id_not_found (s : AppState) (tid jid : Nat)
    (aa ar : ApproverAction) (ri : RequestInfoAction) (rp : ResubmitPayload)
    (cc : CommentCreate)
    (hT : lookupA tid s.approvaltasks = none)
    (hJ : lookupA jid s.justifications = none)
    (hr : reasonMissing ar.comment = false) :
    approve_task s tid aa = (s, .notFound "Task not found") ∧
    reject_task s tid ar = (s, .notFound "Task not found") ∧
    request_info s tid ri = (s, .notFound "Task not found") ∧
    resubmit s jid rp = (s, .notFound "Not found") ∧
    add_comment s jid cc = (s, .notFound "Justification not found") ∧
    get_justification s jid = (none, .notFound "Not found") := by
  refine ⟨?_, ?_, ?_, ?_, ?_, ?_⟩
  · simp only [approve_task, hT]
  · simp only [reject_task, hr, Bool.false_eq_true, if_false, hT]
  · simp only [request_info, hT]
  · simp only [resubmit, hJ]
  · simp only [add_comment, hJ]
  · simp only [get_justification, hJ]

/-- C7 witness: ids 99 (task) and 77 (justification) are absent from the
concrete store and every operation answers NotFound without touching it. -/
theorem C7_witness :
    approve_task wState 99 ⟨"a@x", none⟩ = (wState, .notFound "Task not found") ∧
    reject_task wState 99 ⟨"a@x", some "r"⟩ = (wState, .notFound "Task not found") ∧
    request_info wState 99 ⟨"a@x", "r"⟩ = (wState, .notFound "Task not found") ∧
    resubmit wState 77 ⟨"req@x", none⟩ = (wState, .notFound "Not found") ∧
    add_comment wState 77 ⟨"a@x", "hi", false⟩ =
      (wState, .notFound "Justification not found") ∧
    get_justification wState 77 = (none, .notFound "Not found") :=
  C7_unknown_id_not_found wState 99 77 ⟨"a@x", none⟩ ⟨"a@x", some "r"⟩
    ⟨"a@x", "r"⟩ ⟨"req@x", none⟩ ⟨"a@x", "hi", false⟩
    (by decide) (by decide) (by decide)

/-- C10: Resubmit has no precondition on the current status of the justification:
any stored justification, whatever its status, is flipped back to
PendingApproval with a success response. -/
theorem C10_resubmit_no_precondition (s : AppState) (jid : Nat)
    (payload : ResubmitPayload) (j : Justification)
    (hJ : lookupA jid s.justifications = some j) :
    (resubmit s jid payload).2 = .ok ∧
    lookupA jid (resubmit s jid payload).1.justifications =
      some { j with status := "PendingApproval" } := by
  simp only [resubmit, hJ, log_audit, send_email_stub, lookupA_updateA_self,
    Option.map_some']
  exact ⟨by trivial, by trivial⟩

/-- C10 witness: resubmitting the Rejected justification of `wStateR`
succeeds and puts it back into PendingApproval. -/
theorem C10_witness :
    (resubmit wStateR 0 ⟨"req@x", none⟩).2 = .ok ∧
    lookupA 0 (resubmit wStateR 0 ⟨"req@x", none⟩).1.justifications =
      some { wJust with status := "PendingApproval" } := by
  have h := C10_resubmit_no_precondition wStateR 0 ⟨"req@x", none⟩
    { wJust with status := "Rejected" } (by decide)
  exact ⟨h.1, h.2⟩

/-- Shared characterization of a successful Approve: whatever the statuses
involved, the task is flipped to Approved, exactly one APPROVE audit entry is
appended, and the handler answers ok. -/
theorem approve_task_base (s : AppState) (tid : Nat) (a : ApproverAction)
    (task : ApprovalTask) (j : Justification)
    (hT : lookupA tid s.approvaltasks = some task)
    (hJ : lookupA task.justification_id s.justifications = some j) :
    (approve_task s tid a).2 = .ok ∧
    lookupA tid (approve_task s tid a).1.approvaltasks =
      some { task with status := "Approved" } ∧
    (approve_task s tid a).1.auditlog = s.auditlog ++
      [⟨"justification", task.justification_id, "APPROVE", a.actor_email,
        [("task_id", .n tid), ("comment", .os a.comment)]⟩] := by
  simp only [approve_task, hT, log_audit, send_email_stub]
  split
  · simp only [lookupA_updateA_self, hJ, hT, Option.map_some']
    exact ⟨by trivial, by trivial, by trivial⟩
  · exact ⟨by trivial, by simp only [lookupA_updateA_self, hT,
      Option.map_some'], by trivial⟩

/-- Shared characterization of the final Approve: when every other task of
the justification is already Approved, the justification itself is flipped to
Approved and the final-approval email is appended after the submission-time
outbox content. -/
theorem approve_task_final (s : AppState) (tid : Nat) (a : ApproverAction)
    (task : ApprovalTask) (j : Justification)
    (hT : lookupA tid s.approvaltasks = some task)
    (hJ : lookupA task.justification_id s.justifications = some j)
    (hAll : ∀ p ∈ s.approvaltasks,
      p.2.justification_id = task.justification_id →
      p.1 = tid ∨ p.2.status = "Approved") :
    (approve_task s tid a).2 = .ok ∧
    lookupA task.justification_id (approve_task s tid a).1.justifications =
      some { j with status := "Approved" } ∧
    (approve_task s tid a).1.emailoutbox = s.emailoutbox ++
      [⟨[j.requester_email], "Final approval",
        "Your justification \x27" ++ j.title ++ "\x27 is approved."⟩] := by
  have hrem := remaining_zero_of_all tid task.justification_id
    s.approvaltasks hAll
  simp only [approve_task, hT, log_audit, send_email_stub, hrem,
    List.length_nil, Nat.zero_eq, beq_self_eq_true, if_true,
    lookupA_updateA_self, hJ, Option.map_some']
  exact ⟨by trivial, by trivial, by trivial⟩

/-- C1: once Approve lands on a task all of whose sibling tasks (same
justification) are already Approved — in whatever order those approvals
happened, the state is arbitrary — the status of the justification is set to
Approved and the final-approval notification to the requester is appended. -/
theorem C1_final_approval (s : AppState) (tid : Nat) (a : ApproverAction)
    (task : ApprovalTask) (j : Justification)
    (hT : lookupA tid s.approvaltasks = some task)
    (hJ : lookupA task.justification_id s.justifications = some j)
    (hAll : ∀ p ∈ s.approvaltasks,
      p.2.justification_id = task.justification_id →
      p.1 = tid ∨ p.2.status = "Approved") :
    (approve_task s tid a).2 = .ok ∧
    lookupA task.justification_id (approve_task s tid a).1.justifications =
      some { j with status := "Approved" } ∧
    (approve_task s tid a).1.emailoutbox = s.emailoutbox ++
      [⟨[j.requester_email], "Final approval",
        "Your justification \x27" ++ j.title ++ "\x27 is approved."⟩] :=
  approve_task_final s tid a task j hT hJ hAll

/-- C1 witness: approving the one remaining pending task (task 1; task 2 is
already Approved) of the concrete store flips justification 0 to Approved
and emits the Final approval email. -/
theorem C1_witness :
    (approve_task wState 1 ⟨"a@x", none⟩).2 = .ok ∧
    lookupA 0 (approve_task wState 1 ⟨"a@x", none⟩).1.justifications =
      some { wJust with status := "Approved" } ∧
    (approve_task wState 1 ⟨"a@x", none⟩).1.emailoutbox =
      [⟨["req@x"], "Final approval",
        "Your justification \x27Laptop\x27 is approved."⟩] := by
  have h := C1_final_approval wState 1 ⟨"a@x", none⟩ wTask0 wJust
    (by decide) (by decide) (by decide)
  exact ⟨h.1, h.2.1, h.2.2⟩

/-- C9: Approve guards nothing but task existence: whatever the current
status of the task and of its justification, it answers ok and sets the task
to Approved; and if afterwards no sibling task is non-Approved, the
justification is set to Approved even when its prior status was Rejected or
NeedsMoreInfo. -/
theorem C9_approve_unguarded (s : AppState) (tid : Nat) (a : ApproverAction)
    (task : ApprovalTask) (j : Justification)
    (hT : lookupA tid s.approvaltasks = some task)
    (hJ : lookupA task.justification_id s.justifications = some j) :
    (approve_task s tid a).2 = .ok ∧
    lookupA tid (approve_task s tid a).1.approvaltasks =
      some { task with status := "Approved" } ∧
    ((∀ p ∈ s.approvaltasks,
        p.2.justification_id = task.justification_id →
        p.1 = tid ∨ p.2.status = "Approved") →
      lookupA task.justification_id (approve_task s tid a).1.justifications =
        some { j with status := "Approved" }) := by
  have hb := approve_task_base s tid a task j hT hJ
  exact ⟨hb.1, hb.2.1,
    fun hAll => (approve_task_final s tid a task j hT hJ hAll).2.1⟩

/-- C9 witness: in `wStateR` task 1 is Rejected and justification 0 is
Rejected; Approve on task 1 still succeeds, sets it Approved, and (task 2
being Approved) flips the Rejected justification to Approved. -/
theorem C9_witness :
    (approve_task wStateR 1 ⟨"a@x", none⟩).2 = .ok ∧
    lookupA 1 (approve_task wStateR 1 ⟨"a@x", none⟩).1.approvaltasks =
      some ⟨0, "a@x", 0, "Approved", none⟩ ∧
    lookupA 0 (approve_task wStateR 1 ⟨"a@x", none⟩).1.justifications =
      some { wJust with status := "Approved" } := by
  have h := C9_approve_unguarded wStateR 1 ⟨"a@x", none⟩
    { wTask0 with status := "Rejected" } { wJust with status := "Rejected" }
    (by decide) (by decide)
  exact ⟨h.1, h.2.1, h.2.2 (by decide)⟩

/-- C5: RequestInfo flips exactly the addressed task to NeedsMoreInfo with
the reason stored on it and the justification to NeedsMoreInfo, leaving
every other task entry unchanged; Resubmit sets the justification back to
PendingApproval and reverts exactly its NeedsMoreInfo tasks to Pending,
leaving every task that is not a NeedsMoreInfo task of that justification
(in particular Approved and Rejected ones) unchanged. -/
theorem C5_requestinfo_resubmit_frame (s sR : AppState) (tid jid : Nat)
    (ri : RequestInfoAction) (rp : ResubmitPayload) (task : ApprovalTask)
    (j jR : Justification)
    (hT : lookupA tid s.approvaltasks = some task)
    (hJ : lookupA task.justification_id s.justifications = some j)
    (hJR : lookupA jid sR.justifications = some jR) :
    (request_info s tid ri).2 = .ok ∧
    lookupA tid (request_info s tid ri).1.approvaltasks =
      some { task with
        status := "NeedsMoreInfo", requested_more_info := some ri.reason } ∧
    (∀ k, k ≠ tid → lookupA k (request_info s tid ri).1.approvaltasks =
      lookupA k s.approvaltasks) ∧
    lookupA task.justification_id (request_info s tid ri).1.justifications =
      some { j with status := "NeedsMoreInfo" } ∧
    (resubmit sR jid rp).2 = .ok ∧
    lookupA jid (resubmit sR jid rp).1.justifications =
      some { jR with status := "PendingApproval" } ∧
    (∀ k, lookupA k (resubmit sR jid rp).1.approvaltasks =
      (lookupA k sR.approvaltasks).map (fun t =>
        if t.justification_id == jid && t.status == "NeedsMoreInfo"
        then { t with status := "Pending" } else t)) := by
  refine ⟨?_, ?_, ?_, ?_, ?_, ?_, ?_⟩
  · simp only [request_info, hT, send_email_stub, log_audit,
      lookupA_updateA_self, hJ, Option.map_some']
  · simp only [request_info, hT, send_email_stub, log_audit,
      lookupA_updateA_self, hJ, hT, Option.map_some']
  · intro k hk
    simp only [request_info, hT, send_email_stub, log_audit,
      lookupA_updateA_self, hJ, Option.map_some']
    exact lookupA_updateA_ne tid k _ s.approvaltasks hk
  · simp only [request_info, hT, send_email_stub, log_audit,
      lookupA_updateA_self, hJ, Option.map_some']
  · simp only [resubmit, hJR, send_email_stub, log_audit]
  · simp only [resubmit, hJR, send_email_stub, log_audit,
      lookupA_updateA_self, Option.map_some']
  · intro k
    simp only [resubmit, hJR, send_email_stub, log_audit]
    exact lookupA_updateManyA k _ _ sR.approvaltasks

/-- C5 witness: on the concrete store, RequestInfo on task 1 flips only task
1 (task 2 keeps its entry) and the justification to NeedsMoreInfo; Resubmit
on the NeedsMoreInfo store reverts task 1 to Pending while the Approved task
2 keeps its entry, and the justification returns to PendingApproval. -/
theorem C5_witness :
    (request_info wState 1 ⟨"a@x", "why"⟩).2 = .ok ∧
    lookupA 1 (request_info wState 1 ⟨"a@x", "why"⟩).1.approvaltasks =
      some ⟨0, "a@x", 0, "NeedsMoreInfo", some "why"⟩ ∧
    lookupA 2 (request_info wState 1 ⟨"a@x", "why"⟩).1.approvaltasks =
      some wTask1 ∧
    lookupA 0 (request_info wState 1 ⟨"a@x", "why"⟩).1.justifications =
      some { wJust with status := "NeedsMoreInfo" } ∧
    (resubmit wStateN 0 ⟨"req@x", none⟩).2 = .ok ∧
    lookupA 0 (resubmit wStateN 0 ⟨"req@x", none⟩).1.justifications =
      some { wJust with status := "PendingApproval" } ∧
    lookupA 1 (resubmit wStateN 0 ⟨"req@x", none⟩).1.approvaltasks =
      some ⟨0, "a@x", 0, "Pending", some "x"⟩ ∧
    lookupA 2 (resubmit wStateN 0 ⟨"req@x", none⟩).1.approvaltasks =
      some wTask1 := by
  have h := C5_requestinfo_resubmit_frame wState wStateN 1 0 ⟨"a@x", "why"⟩
    ⟨"req@x", none⟩ wTask0 wJust { wJust with status := "NeedsMoreInfo" }
    (by decide) (by decide) (by decide)
  refine ⟨h.1, h.2.1, ?_, h.2.2.2.1, h.2.2.2.2.1, h.2.2.2.2.2.1, ?_, ?_⟩
  · rw [h.2.2.1 2 (by decide)]; decide
  · rw [h.2.2.2.2.2.2 1]; decide
  · rw [h.2.2.2.2.2.2 2]; decide

/-- C4: a submission resolving to N approvers creates exactly N tasks, one
per approver in list order, with step indices 0..N-1, fresh ids and status
Pending; the justification itself is stored with status PendingApproval; and
when no rule applies, no task at all is created. -/
theorem C4_submission_tasks (s : AppState) (p : JustificationCreate)
    (hfresh : lookupA s.nextId s.justifications = none) :
    (create_justification s p).2 = .okId s.nextId ∧
    (create_justification s p).1.approvaltasks = s.approvaltasks ++
      (List.range (resolved_approvers s.routingrules p.department p.type_code
          p.cost_estimate).length).map (fun i =>
        (s.nextId + 1 + i,
         ⟨s.nextId,
          (resolved_approvers s.routingrules p.department p.type_code
            p.cost_estimate).getD i "", i, "Pending", none⟩)) ∧
    lookupA s.nextId (create_justification s p).1.justifications =
      some ⟨p, "PendingApproval"⟩ ∧
    (select_routing_rule s.routingrules p.department p.type_code
        p.cost_estimate = none →
      (create_justification s p).1.approvaltasks = s.approvaltasks) := by
  refine ⟨rfl, ?_, ?_, ?_⟩
  · simp only [create_justification, log_audit, send_email_stub, apply_ite,
      ite_self]
    rw [mkTasks_eq_range_map]
    simp [Nat.zero_add]
  · simp only [create_justification, log_audit, send_email_stub, apply_ite,
      ite_self]
    exact lookupA_append_singleton s.nextId ⟨p, "PendingApproval"⟩
      s.justifications hfresh
  · intro hnone
    simp only [create_justification, resolved_approvers, hnone, mkTasks,
      log_audit, send_email_stub, apply_ite, ite_self, List.append_nil]

/-- C4 witness: submitting `wPayload` against the store holding `wRule`
creates exactly the two expected Pending tasks with step indices 0 and 1,
stores the justification as PendingApproval, and a submission against an
empty store (no rule applies) creates no task. -/
theorem C4_witness :
    (create_justification wState2 wPayload).2 = .okId 10 ∧
    (create_justification wState2 wPayload).1.approvaltasks =
      [(11, ⟨10, "a@x", 0, "Pending", none⟩),
       (12, ⟨10, "b@x", 1, "Pending", none⟩)] ∧
    lookupA 10 (create_justification wState2 wPayload).1.justifications =
      some ⟨wPayload, "PendingApproval"⟩ ∧
    (create_justification ⟨0, [], [], [], [], [], []⟩ wPayload).1.approvaltasks
      = [] := by
  have h := C4_submission_tasks wState2 wPayload (by decide)
  have h0 := C4_submission_tasks ⟨0, [], [], [], [], [], []⟩ wPayload
    (by decide)
  refine ⟨h.1, ?_, h.2.2.1, h0.2.2.2 (by decide)⟩
  rw [h.2.1]
  decide

/-- C8: each mutating operation, run successfully from the same store,
appends exactly one audit entry whose details carry the causally relevant
fields: the title on CREATE, task id and comment on APPROVE/REJECT, task id
and reason on REQUEST_INFO, the message on RESUBMIT and the fresh comment id
on COMMENT. -/
theorem C8_audit_per_mutation (s : AppState) (p : JustificationCreate)
    (tid jid : Nat) (aa ar : ApproverAction) (ri : RequestInfoAction)
    (rp : ResubmitPayload) (cc : CommentCreate) (task : ApprovalTask)
    (j jR : Justification)
    (hT : lookupA tid s.approvaltasks = some task)
    (hJ : lookupA task.justification_id s.justifications = some j)
    (hJR : lookupA jid s.justifications = some jR)
    (hr : reasonMissing ar.comment = false) :
    (create_justification s p).1.auditlog = s.auditlog ++
      [⟨"justification", s.nextId, "CREATE", p.requester_email,
        [("title", .s p.title)]⟩] ∧
    (approve_task s tid aa).1.auditlog = s.auditlog ++
      [⟨"justification", task.justification_id, "APPROVE", aa.actor_email,
        [("task_id", .n tid), ("comment", .os aa.comment)]⟩] ∧
    (reject_task s tid ar).1.auditlog = s.auditlog ++
      [⟨"justification", task.justification_id, "REJECT", ar.actor_email,
        [("task_id", .n tid), ("comment", .os ar.comment)]⟩] ∧
    (request_info s tid ri).1.auditlog = s.auditlog ++
      [⟨"justification", task.justification_id, "REQUEST_INFO",
        ri.actor_email, [("task_id", .n tid), ("reason", .s ri.reason)]⟩] ∧
    (resubmit s jid rp).1.auditlog = s.auditlog ++
      [⟨"justification", jid, "RESUBMIT", rp.actor_email,
        [("message", .os rp.message)]⟩] ∧
    (add_comment s jid cc).1.auditlog = s.auditlog ++
      [⟨"justification", jid, "COMMENT", cc.author_email,
        [("comment_id", .n s.nextId)]⟩] := by
  refine ⟨?_, (approve_task_base s tid aa task j hT hJ).2.2, ?_, ?_, ?_, ?_⟩
  · simp only [create_justification, log_audit, send_email_stub, apply_ite,
      ite_self]
  · simp only [reject_task, hr, Bool.false_eq_true, if_false, hT, log_audit,
      send_email_stub, lookupA_updateA_self, hJ, Option.map_some']
  · simp only [request_info, hT, log_audit, send_email_stub,
      lookupA_updateA_self, hJ, Option.map_some']
  · simp only [resubmit, hJR, log_audit, send_email_stub]
  · simp only [add_comment, hJR, log_audit]

/-- C8 witness: each operation run on the concrete store leaves exactly the
expected single audit entry. -/
theorem C8_witness :
    (create_justification wState wPayload).1.auditlog =
      [⟨"justification", 5, "CREATE", "req@x", [("title", .s "Laptop")]⟩] ∧
    (approve_task wState 1 ⟨"a@x", some "lgtm"⟩).1.auditlog =
      [⟨"justification", 0, "APPROVE", "a@x",
        [("task_id", .n 1), ("comment", .os (some "lgtm"))]⟩] ∧
    (reject_task wState 1 ⟨"a@x", some "no"⟩).1.auditlog =
      [⟨"justification", 0, "REJECT", "a@x",
        [("task_id", .n 1), ("comment", .os (some "no"))]⟩] ∧
    (request_info wState 1 ⟨"a@x", "more"⟩).1.auditlog =
      [⟨"justification", 0, "REQUEST_INFO", "a@x",
        [("task_id", .n 1), ("reason", .s "more")]⟩] ∧
    (resubmit wState 0 ⟨"req@x", none⟩).1.auditlog =
      [⟨"justification", 0, "RESUBMIT", "req@x", [("message", .os none)]⟩] ∧
    (add_comment wState 0 ⟨"a@x", "hi", false⟩).1.auditlog =
      [⟨"justification", 0, "COMMENT", "a@x", [("comment_id", .n 5)]⟩] :=
  C8_audit_per_mutation wState wPayload 1 0 ⟨"a@x", some "lgtm"⟩
    ⟨"a@x", some "no"⟩ ⟨"a@x", "more"⟩ ⟨"req@x", none⟩ ⟨"a@x", "hi", false⟩
    wTask0 wJust wJust (by decide) (by decide) (by decide) (by decide)

/-- C2 fails as stated: with an empty department string the code builds only
two candidate tiers, not four, and on a store holding a type-only rule before
a rule with an empty-string department filter the scan returns a different
rule than the literal four-tier scan of the spec text would. -/
theorem C2_counterexample :
    (candidateFilters "" "T").length = 2 ∧
    select_routing_rule
      [⟨"r2", none, some "T", none, ["b"]⟩,
       ⟨"r1", some "", some "T", none, ["a"]⟩] "" "T" none =
      some ⟨"r2", none, some "T", none, ["b"]⟩ ∧
    select_routing_rule_spec
      [⟨"r2", none, some "T", none, ["b"]⟩,
       ⟨"r1", some "", some "T", none, ["a"]⟩] "" "T" none =
      some ⟨"r1", some "", some "T", none, ["a"]⟩ := by decide

/-- C2 amended: whenever department and type_code are both non-empty, the
resolver behaves exactly as the spec words it — it scans the four tiers
(department AND type_code), (type_code), (department), catch-all in that
order and returns the first rule whose spend threshold is absent or at most
the estimate (0 when absent), short-circuiting on the first hit; when one of
the two attributes is the empty string, the tiers mentioning it are skipped
instead. -/
theorem C2_tiered_resolution (rules : List RoutingRule)
    (department type_code : String) (spend : Option Rat)
    (hd : department ≠ "") (ht : type_code ≠ "") :
    select_routing_rule rules department type_code spend =
      select_routing_rule_spec rules department type_code spend := by
  have hd' : (department != "") = true := bne_iff_ne.mpr hd
  have ht' : (type_code != "") = true := bne_iff_ne.mpr ht
  unfold select_routing_rule select_routing_rule_spec
  have hc : candidateFilters department type_code =
      candidateFilters_spec department type_code := by
    unfold candidateFilters candidateFilters_spec
    simp [hd', ht']
  rw [hc]

/-- C2 witness: on a non-degenerate input (department Eng, type CAPEX,
estimate 5000 against the threshold-1000 rule) the code resolver and the
four-tier spec resolver agree and select the rule. -/
theorem C2_witness :
    ("Eng" : String) ≠ "" ∧ ("CAPEX" : String) ≠ "" ∧
    select_routing_rule [wRule] "Eng" "CAPEX" (some 5000) =
      select_routing_rule_spec [wRule] "Eng" "CAPEX" (some 5000) :=
  ⟨by decide, by decide,
   C2_tiered_resolution [wRule] "Eng" "CAPEX" (some 5000)
     (by decide) (by decide)⟩
